import Mathlib

/-!
Shallow embedding of the detector-orchestration and adaptive-learning pipeline
of the cgi-detection-photos repository (`cgi-detector-service`): the collection
loop and feature-vector assembly of `forensics/engine.py` (`run_analysis`),
the feature extraction, training, prediction and feedback persistence of
`forensics/ml_predictor.py`, the `/report` handler of `main.py`
(`receive_feedback`), and the batch extraction pipeline of
`scripts/train_model.py` (`run_feature_extraction`).

Detector scores travel through the Python code as dynamically typed values
(floats that may be NaN or infinite, or dicts holding a named confidence
field).  They are embedded as `PyFloat` / `PyVal`, and the exceptions Python
raises on a bad dynamic type (`TypeError`, `AttributeError`, ...) are embedded
as `Except PyError` results.
-/

/-- A Python float as it matters to the pipeline: a finite rational, NaN, or a
signed infinity.  `isNaN` mirrors `np.isnan`. -/
inductive PyFloat where
  | finite (q : ℚ)
  | nan
  | inf
  | ninf
deriving DecidableEq, Repr

/-- Python float `0.0`, the neutral default used throughout the source. -/
def pf0 : PyFloat := PyFloat.finite 0

/-- `np.isnan`: true only for NaN (infinities are not NaN). -/
def PyFloat.isNaN : PyFloat → Bool
  | .nan => true
  | _ => false

/-- A finite real number: not NaN and not infinite. -/
def PyFloat.isFiniteVal : PyFloat → Bool
  | .finite _ => true
  | _ => false

/-- `0.0 if np.isnan(f) else f` (engine.py line 194, applied element-wise). -/
def nanToZero (x : PyFloat) : PyFloat :=
  if x.isNaN then pf0 else x

/-- A dynamically typed Python value stored in the orchestrator's `results`
dict: either a float score or a dict mapping string keys to floats (the shape
returned by the structured detectors). -/
inductive PyVal where
  | num (x : PyFloat)
  | dict (entries : List (String × PyFloat))
deriving DecidableEq, Repr

/-- The Python exception kinds the embedded code can raise, together with the
two error kinds the specification names (`InvalidInputError`,
`TrainingDataError`), so that their absence from the code is expressible. -/
inductive PyError where
  | valueError
  | typeError
  | attributeError
  | keyError
  | invalidInputError
  | trainingDataError
deriving DecidableEq, Repr

/-- Association-list lookup on a dict of floats (Python `d[k]` / `d.get(k)`). -/
def dictLookup (k : String) (d : List (String × PyFloat)) : Option PyFloat :=
  List.lookup k d

/-- `results.get(name, 0.0)` (engine.py lines 173-181): look up a detector's
entry, defaulting to the float `0.0` when absent. -/
def getScoreD (r : List (String × PyVal)) (name : String) : PyVal :=
  (List.lookup name r).getD (PyVal.num pf0)

/-- `results.get(name, {}).get('confidence', 0.0)` (engine.py lines 182-184):
absent entries default to an empty dict; a dict entry yields its
`confidence` field or `0.0`; a float entry raises `AttributeError`
(floats have no `.get`). -/
def getConfD (r : List (String × PyVal)) (name : String) :
    Except PyError PyFloat :=
  match (List.lookup name r).getD (PyVal.dict []) with
  | .dict d => .ok ((dictLookup ("confidence") d).getD pf0)
  | .num _ => .error .attributeError

/-- The NaN-sanitising comprehension of engine.py line 194 applied to one
entry of the feature list: `np.isnan` on a float maps NaN to `0.0`; on a
dict it raises `TypeError`. -/
def sanitizeEngine (v : PyVal) : Except PyError PyFloat :=
  match v with
  | .num x => .ok (nanToZero x)
  | .dict _ => .error .typeError

/-- The fixed feature order assembled by `run_analysis`
(engine.py lines 187-191): 12 slots, `rambino` in the sixth position. -/
def engineFeatureOrder : List String :=
  [("ela"), ("cfa"), ("hos"), ("jpeg_ghost"), ("jpeg_dimples"), ("rambino"),
   ("geometric"), ("lighting"), ("specialized"),
   ("deepfake"), ("reflection_inconsistency"), ("double_quantization")]

/-- The fixed feature order assembled by `extract_features_from_image_bytes`
(ml_predictor.py lines 145-149): the same 12 slots followed by
`watermark` — 13 slots. -/
def extractFeatureOrder : List String :=
  engineFeatureOrder ++ [("watermark")]

/-- The feature-vector assembly of `run_analysis` (engine.py lines 172-194):
plain scores via `results.get(name, 0.0)`, the three structured detectors via
`.get('confidence', 0.0)`, then the NaN-sanitising comprehension over all 12
entries.  Python evaluates the three `confidence` lookups (which can raise
`AttributeError`) before the comprehension (which can raise `TypeError`). -/
def mlFeaturesEngine (r : List (String × PyVal)) :
    Except PyError (List PyFloat) := do
  let deepfakeScore ← getConfD r ("deepfake")
  let reflectionScore ← getConfD r ("reflection_inconsistency"
    )
  let doubleQuantScore ← getConfD r ("double_quantization")
  let elaScore ← sanitizeEngine (getScoreD r ("ela"))
  let cfaScore ← sanitizeEngine (getScoreD r ("cfa"))
  let hosScore ← sanitizeEngine (getScoreD r ("hos"))
  let jpegGhostScore ← sanitizeEngine (getScoreD r ("jpeg_ghost"))
  let jpegDimplesScore ← sanitizeEngine (getScoreD r ("jpeg_dimples"))
  let rambinoScore ← sanitizeEngine (getScoreD r ("rambino"))
  let geometricScore ← sanitizeEngine (getScoreD r ("geometric"))
  let lightingScore ← sanitizeEngine (getScoreD r ("lighting"))
  let specializedScore ← sanitizeEngine (getScoreD r ("specialized"))
  .ok [elaScore, cfaScore, hosScore, jpegGhostScore, jpegDimplesScore,
       rambinoScore, geometricScore, lightingScore, specializedScore,
       nanToZero deepfakeScore, nanToZero reflectionScore,
       nanToZero doubleQuantScore]

/-- The feature-vector assembly of `extract_features_from_image_bytes`
(ml_predictor.py lines 131-150): the same lookups as the engine, plus a
13th `watermark` slot, and — unlike the engine — no NaN-sanitising pass:
plain entries are placed in the list exactly as stored. -/
def mlFeaturesExtract (r : List (String × PyVal)) :
    Except PyError (List PyVal) := do
  let deepfakeScore ← getConfD r ("deepfake")
  let reflectionScore ← getConfD r ("reflection_inconsistency"
    )
  let doubleQuantScore ← getConfD r ("double_quantization")
  .ok [getScoreD r ("ela"), getScoreD r ("cfa"), getScoreD r ("hos"),
       getScoreD r ("jpeg_ghost"), getScoreD r ("jpeg_dimples"),
       getScoreD r ("rambino"), getScoreD r ("geometric"),
       getScoreD r ("lighting"), getScoreD r ("specialized"),
       PyVal.num deepfakeScore, PyVal.num reflectionScore,
       PyVal.num doubleQuantScore, getScoreD r ("watermark")]

/-- A well-behaved concrete outcome map: every plain detector scored `0.0`,
the three structured detectors returned `{confidence: 0.0}` dicts, and the
watermark detector scored `0.0`. -/
def sampleOutcomes : List (String × PyVal) :=
  [(("ela"), PyVal.num pf0), (("cfa"), PyVal.num pf0),
   (("hos"), PyVal.num pf0), (("jpeg_ghost"), PyVal.num pf0),
   (("jpeg_dimples"), PyVal.num pf0), (("geometric"), PyVal.num pf0),
   (("lighting"), PyVal.num pf0), (("specialized"), PyVal.num pf0),
   (("deepfake"), PyVal.dict [(("confidence"), pf0)]),
   (("reflection_inconsistency"), PyVal.dict [(("confidence"), pf0)]),
   (("double_quantization"), PyVal.dict [(("confidence"), pf0)]),
   (("rambino"), PyVal.num pf0), (("watermark"), PyVal.num pf0)]

/-- **C1.** For the same detector outcomes, the feature vector assembled at
inference time by `run_analysis` has 12 elements, while the one assembled for
a feedback/training sample by `extract_features_from_image_bytes` has 13
elements (it appends a `watermark` slot).  The two vectors are therefore never
identical, contradicting the claim that retraining recomputes exactly the
inference-time feature vector (and contradicting the repository's own
`test_ml_predictor.py`, which documents "12 features as used in engine.py and
ml_predictor.py"). -/
theorem c1_feature_vector_length_mismatch :
    mlFeaturesEngine sampleOutcomes = .ok (List.replicate 12 pf0) ∧
    mlFeaturesExtract sampleOutcomes =
      .ok (List.replicate 13 (PyVal.num pf0)) ∧
    (List.replicate 12 pf0).length ≠
      (List.replicate 13 (PyVal.num pf0)).length := by
  refine ⟨by rfl, by rfl, by decide⟩

/-- The first nine names of the engine's feature order are the plain
(float-scored) detectors; the last three are the structured ones. -/
def enginePlainNames : List String := engineFeatureOrder.take 9

/-- The three detectors whose entry is read through `.get('confidence', 0.0)`
(engine.py lines 182-184). -/
def confNames : List String :=
  [("deepfake"), ("reflection_inconsistency"), ("double_quantization")]

/-- A detector's entry is float-shaped (or absent): the shape under which the
NaN-sanitising comprehension does not raise `TypeError`. -/
def isNumShaped (r : List (String × PyVal)) (n : String) : Bool :=
  match List.lookup n r with
  | none => true
  | some (.num _) => true
  | some (.dict _) => false

/-- A structured detector's entry is dict-shaped (or absent): the shape under
which `.get('confidence', 0.0)` does not raise `AttributeError`. -/
def isConfShaped (r : List (String × PyVal)) (n : String) : Bool :=
  match (List.lookup n r).getD (PyVal.dict []) with
  | .dict _ => true
  | .num _ => false

/-- Specification-side description of one feature slot: look a detector up in
the outcome map; an absent entry is `0.0`, a float entry is itself, a dict
entry contributes its `confidence` field (default `0.0`). -/
def buildSlotValue (r : List (String × PyVal)) (n : String) : PyFloat :=
  match List.lookup n r with
  | none => pf0
  | some (.num x) => x
  | some (.dict d) => (dictLookup ("confidence") d).getD pf0

/-- Specification-side description of one slot of the extraction-path vector,
which keeps plain entries exactly as stored and wraps the structured
detectors' confidence fields. -/
def extractSlotValue (r : List (String × PyVal)) (n : String) : PyVal :=
  if confNames.contains n then PyVal.num (buildSlotValue r n)
  else getScoreD r n

theorem nanToZero_not_nan (x : PyFloat) : (nanToZero x).isNaN = false := by
  cases x <;> rfl

theorem getConfD_eq_of_confShaped (r : List (String × PyVal)) (n : String)
    (h : isConfShaped r n = true) :
    getConfD r n = .ok (buildSlotValue r n) := by
  unfold isConfShaped at h
  unfold getConfD buildSlotValue
  cases hl : List.lookup n r with
  | none => simp [hl, dictLookup]
  | some v =>
    cases v with
    | num x => rw [hl] at h; simp at h
    | dict d => simp [hl]

theorem sanitizeEngine_eq_of_numShaped (r : List (String × PyVal))
    (n : String) (h : isNumShaped r n = true) :
    sanitizeEngine (getScoreD r n) = .ok (nanToZero (buildSlotValue r n)) := by
  unfold isNumShaped at h
  unfold sanitizeEngine getScoreD buildSlotValue
  cases hl : List.lookup n r with
  | none => simp [hl, nanToZero, pf0, PyFloat.isNaN]
  | some v =>
    cases v with
    | num x => simp [hl]
    | dict d => rw [hl] at h; simp at h

/-- An outcome map in which the ELA detector produced positive infinity. -/
def outcomesInf : List (String × PyVal) :=
  (("ela"), PyVal.num PyFloat.inf) :: sampleOutcomes

/-- An outcome map reachable when the deepfake task raised an exception: the
collection loop records the float `0.0` for it (engine.py line 167). -/
def outcomesDeepfakeFailed : List (String × PyVal) :=
  (("deepfake"), PyVal.num pf0) :: sampleOutcomes

/-- An outcome map in which the ELA detector produced NaN. -/
def outcomesNan : List (String × PyVal) :=
  (("ela"), PyVal.num PyFloat.nan) :: sampleOutcomes

/-- **C3, counterexample.** The claim fails on the code in three ways, each at
a concrete outcome map.  (1) An infinite ELA score is non-finite yet survives
into the engine's feature vector unreplaced (only `np.isnan` is checked, so
infinities pass).  (2) If the deepfake task failed, its collected entry is the
float `0.0`, and `.get('confidence', 0.0)` on that float raises
`AttributeError`: no fixed-length vector is built at all.  (3) The extraction
path (`extract_features_from_image_bytes`) has no NaN-sanitising pass, so a
NaN score survives there as well. -/
theorem c3_nonfinite_scores_not_replaced :
    mlFeaturesEngine outcomesInf =
      .ok (PyFloat.inf :: List.replicate 11 pf0) ∧
    PyFloat.inf.isFiniteVal = false ∧ PyFloat.inf ≠ pf0 ∧
    mlFeaturesEngine outcomesDeepfakeFailed = .error .attributeError ∧
    mlFeaturesExtract outcomesNan =
      .ok (PyVal.num PyFloat.nan :: List.replicate 12 (PyVal.num pf0)) ∧
    PyFloat.nan.isFiniteVal = false ∧ PyFloat.nan ≠ pf0 := by
  exact ⟨by rfl, by decide, by decide, by rfl, by rfl, by decide, by decide⟩

/-- **C3, amended.** For every outcome map whose plain-detector entries are
floats (or absent) and whose three structured-detector entries are dicts (or
absent): the engine's builder returns a vector of exactly 12 slots, one per
registered detector in the declared order, with every absent score and every
NaN score replaced by `0.0` (infinite scores pass through unchanged); the
extraction-path builder returns 13 slots in its declared order with absent
scores defaulting to `0.0` but performs no NaN replacement.  When a
structured entry is instead the float failure value, the engine raises
`AttributeError` (shown in the counterexample). -/
theorem c3_feature_builder_shape (r : List (String × PyVal))
    (hnum : ∀ n ∈ enginePlainNames, isNumShaped r n = true)
    (hconf : ∀ n ∈ confNames, isConfShaped r n = true) :
    mlFeaturesEngine r =
      .ok (engineFeatureOrder.map (fun n => nanToZero (buildSlotValue r n))) ∧
    (engineFeatureOrder.map (fun n => nanToZero (buildSlotValue r n))).length
      = 12 ∧
    (∀ x ∈ engineFeatureOrder.map (fun n => nanToZero (buildSlotValue r n)),
      x.isNaN = false) ∧
    (∀ n ∈ engineFeatureOrder, List.lookup n r = none →
      nanToZero (buildSlotValue r n) = pf0) ∧
    mlFeaturesExtract r =
      .ok (extractFeatureOrder.map (extractSlotValue r)) ∧
    (extractFeatureOrder.map (extractSlotValue r)).length = 13 := by
  have hdf := getConfD_eq_of_confShaped r ("deepfake") (hconf _ (by decide))
  have hrf := getConfD_eq_of_confShaped r ("reflection_inconsistency"
    ) (hconf _ (by decide))
  have hdq := getConfD_eq_of_confShaped r ("double_quantization")
    (hconf _ (by decide))
  have e1 := sanitizeEngine_eq_of_numShaped r ("ela") (hnum _ (by decide))
  have e2 := sanitizeEngine_eq_of_numShaped r ("cfa") (hnum _ (by decide))
  have e3 := sanitizeEngine_eq_of_numShaped r ("hos") (hnum _ (by decide))
  have e4 := sanitizeEngine_eq_of_numShaped r ("jpeg_ghost")
    (hnum _ (by decide))
  have e5 := sanitizeEngine_eq_of_numShaped r ("jpeg_dimples")
    (hnum _ (by decide))
  have e6 := sanitizeEngine_eq_of_numShaped r ("rambino") (hnum _ (by decide))
  have e7 := sanitizeEngine_eq_of_numShaped r ("geometric")
    (hnum _ (by decide))
  have e8 := sanitizeEngine_eq_of_numShaped r ("lighting") (hnum _ (by decide))
  have e9 := sanitizeEngine_eq_of_numShaped r ("specialized")
    (hnum _ (by decide))
  refine ⟨?_, by simp [engineFeatureOrder], ?_, ?_, ?_,
    by simp [extractFeatureOrder, engineFeatureOrder]⟩
  · simp only [mlFeaturesEngine, hdf, hrf, hdq, e1, e2, e3, e4, e5, e6, e7,
      e8, e9, bind, Except.bind, engineFeatureOrder, List.map]
  · intro x hx
    simp only [List.mem_map] at hx
    obtain ⟨n, _, rfl⟩ := hx
    exact nanToZero_not_nan _
  · intro n _ h
    simp [buildSlotValue, h, nanToZero, pf0, PyFloat.isNaN]
  · simp only [mlFeaturesExtract, hdf, hrf, hdq, bind, Except.bind,
      extractFeatureOrder, engineFeatureOrder, List.map, extractSlotValue,
      confNames, List.append_eq, List.cons_append, List.nil_append]
    simp [getScoreD]

/-- **C3, witness.** The amended builder characterisation applied to the
concrete well-shaped outcome map. -/
theorem c3_feature_builder_shape_witness :
    mlFeaturesEngine sampleOutcomes =
      .ok (engineFeatureOrder.map
        (fun n => nanToZero (buildSlotValue sampleOutcomes n))) :=
  (c3_feature_builder_shape sampleOutcomes (by decide) (by decide)).1

/-- The keys under which `run_analysis` submits its detector tasks
(engine.py lines 112-127), in dict insertion order. -/
def engineSubmittedNames : List String :=
  [("ela"), ("cfa"), ("hos"), ("jpeg_ghost"), ("jpeg_dimples"),
   ("geometric"), ("lighting"), ("specialized_detector"), ("deepfake"),
   ("reflection_inconsistency"), ("double_quantization"), ("rambino")]

/-- The key under which a submitted task's outcome is stored in `results`:
the `specialized_detector` task is stored as `specialized`
(engine.py line 154); every other task keeps its submitted name. -/
def collectKey (n : String) : String :=
  if n = ("specialized_detector") then ("specialized") else n

/-- The value the collection loop (engine.py lines 138-170) stores for one
submitted task.  A task that raised is recorded as the float `0.0`.  A
successful `rambino` task contributes its result's `score` item (a missing
item or a non-dict result raises inside the `try` and is caught, giving
`0.0`).  A successful `specialized_detector` task contributes
`result.get('overall_score', 0.0)` (a non-dict result raises
`AttributeError`, caught, giving `0.0`).  Every other successful task's
value is stored unchanged. -/
def collectEntry (n : String) (res : Except Unit PyVal) : PyVal :=
  match res with
  | .error _ => PyVal.num pf0
  | .ok v =>
    if n = ("rambino") then
      match v with
      | .dict d =>
        match dictLookup ("score") d with
        | some s => PyVal.num s
        | none => PyVal.num pf0
      | .num _ => PyVal.num pf0
    else if n = ("specialized_detector") then
      match v with
      | .dict d => PyVal.num ((dictLookup ("overall_score") d).getD pf0)
      | .num _ => PyVal.num pf0
    else v

/-- The collection loop of `run_analysis` (engine.py lines 132-170): iterate
over the submitted tasks in submission order and record one entry for each,
given the per-task outcome assignment `f` (`.ok v` for a task whose
`future.result()` returned `v`, `.error ()` for a task that raised). -/
def collectResults (f : String → Except Unit PyVal) :
    List (String × PyVal) :=
  engineSubmittedNames.map (fun n => (collectKey n, collectEntry n (f n)))

/-- A concrete outcome assignment in which every task succeeds with a
well-shaped value. -/
def allOkOutcomes : String → Except Unit PyVal := fun n =>
  if n = ("rambino") then .ok (PyVal.dict [(("score"), PyFloat.finite 1)])
  else if n = ("specialized_detector") then
    .ok (PyVal.dict [(("overall_score"), PyFloat.finite 1)])
  else if confNames.contains n then
    .ok (PyVal.dict [(("confidence"), PyFloat.finite 1)])
  else .ok (PyVal.num (PyFloat.finite 1))

/-- **C4, counterexample.** Even when every submitted task succeeds, the
collected outcome map has no entry under the submitted name
`specialized_detector`: its outcome is stored under the key `specialized`
instead, so the map does not contain an entry for every *submitted* name as
the claim states. -/
theorem c4_submitted_name_missing_from_results :
    (("specialized_detector") ∈ engineSubmittedNames) ∧
    List.lookup ("specialized_detector") (collectResults allOkOutcomes)
      = none ∧
    List.lookup ("specialized") (collectResults allOkOutcomes)
      = some (PyVal.num (PyFloat.finite 1)) := by
  exact ⟨by decide, by rfl, by rfl⟩

/-- **C4, amended.** For every per-task outcome assignment, the collection
loop records exactly one entry per submitted task, with no key dropped or
duplicated, but the `specialized_detector` task is recorded under the key
`specialized` rather than its submitted name; a task that raised is recorded
as `0.0`; every other plain task's value is stored unchanged, a successful
`rambino` task is recorded as its result's `score` item (default `0.0`), and
a successful `specialized_detector` task as its result's `overall_score`
field (default `0.0`). -/
theorem c4_collection_spec (f : String → Except Unit PyVal) :
    ((collectResults f).map Prod.fst = engineSubmittedNames.map collectKey) ∧
    ((collectResults f).map Prod.fst).Nodup ∧
    (∀ n ∈ engineSubmittedNames, f n = .error () →
      List.lookup (collectKey n) (collectResults f) = some (PyVal.num pf0)) ∧
    (∀ n ∈ engineSubmittedNames, n ≠ ("rambino") →
      n ≠ ("specialized_detector") → ∀ v, f n = .ok v →
      List.lookup n (collectResults f) = some v) ∧
    (∀ d, f ("rambino") = .ok (PyVal.dict d) →
      List.lookup ("rambino") (collectResults f) =
        some (PyVal.num ((dictLookup ("score") d).getD pf0))) ∧
    (∀ d, f ("specialized_detector") = .ok (PyVal.dict d) →
      List.lookup ("specialized") (collectResults f) =
        some (PyVal.num ((dictLookup ("overall_score") d).getD pf0))) := by
  have hkeys : (collectResults f).map Prod.fst
      = engineSubmittedNames.map collectKey := by
    simp [collectResults, List.map_map, Function.comp]
  refine ⟨hkeys, by rw [hkeys]; decide, ?_, ?_, ?_, ?_⟩
  · intro n hn hf
    fin_cases hn <;>
      simp_all [collectResults, engineSubmittedNames, collectKey,
        collectEntry, List.lookup]
  · intro n hn h1 h2 v hv
    fin_cases hn <;>
      simp_all [collectResults, engineSubmittedNames, collectKey,
        collectEntry, List.lookup]
  · intro d hd
    cases hs : dictLookup ("score") d <;>
      simp [collectResults, engineSubmittedNames, collectKey,
        collectEntry, List.lookup, hd, hs]
  · intro d hd
    simp [collectResults, engineSubmittedNames, collectKey,
      collectEntry, List.lookup, hd]

/-- An outcome assignment in which only the `cfa` task raised. -/
def cfaFailedOutcomes : String → Except Unit PyVal := fun n =>
  if n = ("cfa") then .error () else allOkOutcomes n

/-- **C4, witness.** The collection characterisation applied to a concrete
assignment in which the `cfa` task raised: `cfa` is recorded as `0.0` while
`ela` keeps its score unchanged. -/
theorem c4_collection_spec_witness :
    List.lookup ("ela") (collectResults cfaFailedOutcomes)
      = some (PyVal.num (PyFloat.finite 1)) ∧
    List.lookup ("cfa") (collectResults cfaFailedOutcomes)
      = some (PyVal.num pf0) :=
  ⟨(c4_collection_spec cfaFailedOutcomes).2.2.2.1 ("ela") (by decide)
      (by decide) (by decide) _ (by rfl),
    (c4_collection_spec cfaFailedOutcomes).2.2.1 ("cfa") (by decide)
      (by rfl)⟩

/-- The loaded scikit-learn classifier, embedded through its interface
contract (the classifier itself is an external collaborator of the
repository): `predict` on a sample of the expected width returns a class
index below the class count, `predict_proba` returns per-class probabilities
in `[0, 1]`, and calling either on a sample whose width differs from the
feature count seen at fit time raises `ValueError`. -/
structure SKModel where
  nFeatures : ℕ
  nClasses : ℕ
  classOf : List PyFloat → ℕ
  probaOf : List PyFloat → ℕ → ℚ
  classOf_lt : ∀ x, classOf x < nClasses
  probaOf_nonneg : ∀ x c, 0 ≤ probaOf x c
  probaOf_le_one : ∀ x c, probaOf x c ≤ 1

/-- `model.predict(features_array)[0]` with sklearn's input-width check. -/
def skPredictClass (m : SKModel) (x : List PyFloat) : Except PyError ℕ :=
  if x.length = m.nFeatures then .ok (m.classOf x) else .error .valueError

/-- `model.predict_proba(features_array)[0, c]` with sklearn's input-width
check. -/
def skPredictProbaAt (m : SKModel) (x : List PyFloat) (c : ℕ) :
    Except PyError ℚ :=
  if x.length = m.nFeatures then .ok (m.probaOf x c) else .error .valueError

/-- The result dictionary returned by `ml_predictor.predict`. -/
structure PredictResult where
  prediction_label : String
  confidence : ℚ
deriving DecidableEq, Repr

/-- `ml_predictor.predict` (ml_predictor.py lines 301-323): reshape the
input to a single sample (semantically a no-op), take the predicted class,
read that class's probability, and map class `1` to the label `cgi` and
every other class to `real`.  The function performs no validation of its
own: the only failure is the underlying sklearn `ValueError` on an input
whose width differs from the model's expected feature count. -/
def predict (m : SKModel) (features : List PyFloat) :
    Except PyError PredictResult := do
  let p ← skPredictClass m features
  let conf ← skPredictProbaAt m features p
  .ok { prediction_label := if p = 1 then ("cgi") else ("real"),
        confidence := conf }

/-- A concrete model: two classes over two features, always predicting
class `1` with probability `1`. -/
def constCgiModel : SKModel where
  nFeatures := 2
  nClasses := 2
  classOf := fun _ => 1
  probaOf := fun _ _ => 1
  classOf_lt := fun _ => Nat.one_lt_two
  probaOf_nonneg := fun _ _ => by norm_num
  probaOf_le_one := fun _ _ => by norm_num

/-- **C2, counterexample.** On a model predicting class `1`, `predict`
returns the label `cgi`, which is neither `real` nor `synthetic`: the
claimed label set {real, synthetic} is wrong for this code (the code's
positive label is `cgi`). -/
theorem c2_label_is_cgi_not_synthetic :
    predict constCgiModel [pf0, pf0] =
      .ok { prediction_label := ("cgi"), confidence := 1 } ∧
    (("cgi") : String) ≠ ("real") ∧ (("cgi") : String) ≠ ("synthetic") := by
  exact ⟨by rfl, by decide, by decide⟩

/-- **C2, amended.** Whenever `predict` returns a result, its label is a
member of {`real`, `cgi`} (not {`real`, `synthetic`}) and its confidence is
a probability in the closed interval `[0, 1]`. -/
theorem c2_predict_label_and_confidence (m : SKModel) (x : List PyFloat)
    (r : PredictResult) (h : predict m x = .ok r) :
    (r.prediction_label = ("real") ∨ r.prediction_label = ("cgi")) ∧
    0 ≤ r.confidence ∧ r.confidence ≤ 1 := by
  unfold predict skPredictClass skPredictProbaAt at h
  by_cases hl : x.length = m.nFeatures
  · simp only [hl, if_pos, bind, Except.bind] at h
    cases h
    refine ⟨?_, m.probaOf_nonneg _ _, m.probaOf_le_one _ _⟩
    by_cases hc : m.classOf x = 1 <;> simp [hc]
  · simp [hl, bind, Except.bind] at h

/-- **C2, witness.** The amended label/confidence property applied to a
concrete model and input. -/
theorem c2_predict_label_and_confidence_witness :
    ((("cgi") : String) = ("real") ∨ (("cgi") : String) = ("cgi")) ∧
    (0 : ℚ) ≤ 1 ∧ (1 : ℚ) ≤ 1 :=
  c2_predict_label_and_confidence constCgiModel [pf0, pf0]
    { prediction_label := ("cgi"), confidence := 1 } (by rfl)

/-- **C5, counterexample.** On an input whose length differs from the
model's expected feature count, `predict` does not raise the specified
`InvalidInputError`: it performs no validation of its own, and the failure
that surfaces is the underlying sklearn `ValueError`. -/
theorem c5_mismatch_gives_value_error :
    predict constCgiModel [pf0] = .error .valueError ∧
    PyError.valueError ≠ PyError.invalidInputError := by
  exact ⟨by rfl, by decide⟩

/-- **C5, amended.** `predict` contains no length validation and never
fails with an `InvalidInputError`; an input of mismatched length fails with
the underlying sklearn `ValueError`, and an input of the expected length
always succeeds. -/
theorem c5_predict_no_invalid_input_error (m : SKModel) (x : List PyFloat) :
    (predict m x ≠ .error .invalidInputError) ∧
    (x.length ≠ m.nFeatures → predict m x = .error .valueError) ∧
    (x.length = m.nFeatures →
      predict m x = .ok
        { prediction_label :=
            if m.classOf x = 1 then ("cgi") else ("real"),
          confidence := m.probaOf x (m.classOf x) }) := by
  unfold predict skPredictClass skPredictProbaAt
  by_cases hl : x.length = m.nFeatures <;>
    simp [hl, bind, Except.bind]

/-- **C5, witness.** The amended property applied at a concrete model and
mismatched input. -/
theorem c5_predict_no_invalid_input_error_witness :
    predict constCgiModel [pf0] = .error .valueError :=
  (c5_predict_no_invalid_input_error constCgiModel [pf0]).2.1 (by decide)

/-- The files `train_and_save_model` writes: the model artifact (kept with
its provenance, the exact features/labels it was fitted from) and the paired
training-data snapshot. -/
structure TrainFiles where
  modelFile : Option (List (List PyFloat) × List ℕ)
  trainingDataFile : Option (List (List PyFloat) × List ℕ)
deriving DecidableEq, Repr

/-- `ml_predictor.train_and_save_model` (ml_predictor.py lines 277-299):
`train_test_split(test_size=0.2)` raises sklearn's `ValueError` when the
feature and label counts disagree or when there are fewer than two samples
(the train split would be empty); otherwise the classifier is fitted —
sklearn fits happily on a single class — and both the model and the
training-data snapshot are unconditionally persisted.  The function contains
no check on the number of distinct classes. -/
def train_and_save_model (features : List (List PyFloat)) (labels : List ℕ)
    (files : TrainFiles) : Except PyError TrainFiles :=
  if features.length = labels.length ∧ 2 ≤ features.length then
    .ok { modelFile := some (features, labels),
          trainingDataFile := some (features, labels) }
  else .error .valueError

/-- The number of distinct classes in a label vector. -/
def distinctClassCount (labels : List ℕ) : ℕ := labels.dedup.length

/-- **C6, counterexample.** On a two-sample training set whose labels are
all the single class `0`, `train_and_save_model` does not fail with a
`TrainingDataError`: it trains and persists both the model and the snapshot
anyway. -/
theorem c6_single_class_training_succeeds :
    distinctClassCount [0, 0] < 2 ∧
    train_and_save_model [[pf0], [pf0]] [0, 0]
        { modelFile := none, trainingDataFile := none } =
      .ok { modelFile := some ([[pf0], [pf0]], [0, 0]),
            trainingDataFile := some ([[pf0], [pf0]], [0, 0]) } := by
  exact ⟨by decide, by rfl⟩

/-- **C6, amended.** `train_and_save_model` performs no class-count
validation and never fails with a `TrainingDataError`; whenever the feature
and label counts agree and there are at least two samples it persists the
newly fitted model and its training snapshot, regardless of how many
distinct classes the labels contain. -/
theorem c6_train_and_save_no_class_check (features : List (List PyFloat))
    (labels : List ℕ) (files : TrainFiles) :
    (train_and_save_model features labels files ≠
      .error .trainingDataError) ∧
    (features.length = labels.length → 2 ≤ features.length →
      train_and_save_model features labels files =
        .ok { modelFile := some (features, labels),
              trainingDataFile := some (features, labels) }) := by
  unfold train_and_save_model
  by_cases h : features.length = labels.length ∧ 2 ≤ features.length
  · obtain ⟨h1, h2⟩ := h
    have h2' : 2 ≤ labels.length := h1 ▸ h2
    simp [h1, h2']
  · simp only [h, if_neg, ne_eq, not_false_eq_true]
    refine ⟨by simp, fun h1 h2 => absurd ⟨h1, h2⟩ h⟩

/-- **C6, witness.** The amended property applied to a concrete
single-class training set. -/
theorem c6_train_and_save_no_class_check_witness :
    train_and_save_model [[pf0], [pf0]] [0, 0]
        { modelFile := none, trainingDataFile := none } =
      .ok { modelFile := some ([[pf0], [pf0]], [0, 0]),
            trainingDataFile := some ([[pf0], [pf0]], [0, 0]) } :=
  (c6_train_and_save_no_class_check [[pf0], [pf0]] [0, 0]
    { modelFile := none, trainingDataFile := none }).2 (by decide) (by decide)

/-- The persistent and in-process state the `/report` handler touches: the
label-partitioned feedback dataset (each stored sample is a
`(true_label, image bytes)` pair, appended under a fresh unique filename),
the persisted model files, and the model currently loaded in the engine. -/
structure SysState where
  feedback : List (String × List ℕ)
  modelFiles : Option (List (List PyFloat) × List ℕ)
  activeModel : Option (List (List PyFloat) × List ℕ)
deriving DecidableEq, Repr

/-- `ml_predictor.save_feedback_image_and_label` (ml_predictor.py lines
152-161): write the image bytes under the directory of its true label with
a fresh UUID filename — an append to the label-partitioned store. -/
def save_feedback_image_and_label (imageBytes : List ℕ) (trueLabel : String)
    (st : SysState) : SysState :=
  { st with feedback := st.feedback ++ [(trueLabel, imageBytes)] }

/-- The label conversion of main.py line 82:
`"real" if userCorrection == "false_cgi" else "cgi"`. -/
def trueLabelOf (userCorrection : String) : String :=
  if userCorrection = ("false_cgi") then ("real") else ("cgi")

/-- `main.receive_feedback` (main.py lines 65-93), parameterised over the
retraining step (`ml_predictor.retrain_with_feedback`, whose detector work
is external and which rewrites only the persisted model files): convert the
user correction to a label, append the sample to the feedback store, run
retraining, then reload the engine's model from disk
(`engine.reload_ml_model`, which raises if no model file exists).  The
success message is returned only if every step succeeded; an exception in
retraining or reloading propagates to the caller.  Whatever happens, the
saved sample remains on disk, so the handler returns the resulting state
alongside the response. -/
def receive_feedback
    (retrainFn : SysState → Except Unit (Option (List (List PyFloat) × List ℕ)))
    (contents : List ℕ) (userCorrection originalPrediction : String)
    (st : SysState) : SysState × Except Unit String :=
  let true_label := trueLabelOf userCorrection
  let st1 := save_feedback_image_and_label contents true_label st
  match retrainFn st1 with
  | .error e => (st1, .error e)
  | .ok mf =>
    let st2 : SysState := { st1 with modelFiles := mf }
    match st2.modelFiles with
    | none => (st2, .error ())
    | some m =>
      ({ st2 with activeModel := some m },
       .ok ("Feedback received successfully. Model retraining triggered!"))

/-- A retraining step that always raises. -/
def failingRetrain :
    SysState → Except Unit (Option (List (List PyFloat) × List ℕ)) :=
  fun _ => .error ()

/-- The empty system state. -/
def emptySysState : SysState :=
  { feedback := [], modelFiles := none, activeModel := none }

/-- **C7, counterexample.** When the retraining step raises, the `/report`
handler does *not* report success even though the sample has already been
durably written: the exception propagates and the caller receives an error,
with the sample left in the feedback store. -/
theorem c7_retrain_failure_propagates :
    (receive_feedback failingRetrain [7] ("false_cgi") ("p")
        emptySysState).2 = .error () ∧
    (receive_feedback failingRetrain [7] ("false_cgi") ("p")
        emptySysState).1.feedback = [(("real"), [7])] := by
  exact ⟨by rfl, by rfl⟩

/-- In every outcome of the handler — retraining failure included — the
feedback store ends up with the new sample appended under the computed
label, since the append happens before retraining is attempted. -/
theorem receive_feedback_store_append (retrainFn : SysState →
      Except Unit (Option (List (List PyFloat) × List ℕ)))
    (contents : List ℕ) (u o : String) (st : SysState) :
    (receive_feedback retrainFn contents u o st).1.feedback =
      st.feedback ++ [(trueLabelOf u, contents)] := by
  simp only [receive_feedback, save_feedback_image_and_label]
  cases hr : retrainFn
      { st with feedback := st.feedback ++ [(trueLabelOf u, contents)] } with
  | error e => simp [hr]
  | ok mf =>
    cases mf with
    | none => simp [hr]
    | some m => simp [hr]

/-- **C7, amended.** The handler durably appends the sample to the
label-partitioned feedback store in every outcome, but it reports success
only if the subsequent retraining and model-reload steps also succeed: a
retraining exception propagates to the caller as that error, and a missing
model file after retraining is an error as well. -/
theorem c7_success_requires_retrain (retrainFn : SysState →
      Except Unit (Option (List (List PyFloat) × List ℕ)))
    (contents : List ℕ) (u o : String) (st : SysState) :
    ((receive_feedback retrainFn contents u o st).1.feedback =
      st.feedback ++ [(trueLabelOf u, contents)]) ∧
    (∀ e, retrainFn (save_feedback_image_and_label contents
        (trueLabelOf u) st) = .error e →
      (receive_feedback retrainFn contents u o st).2 = .error e) ∧
    (∀ m, retrainFn (save_feedback_image_and_label contents
        (trueLabelOf u) st) = .ok (some m) →
      (receive_feedback retrainFn contents u o st).2 =
        .ok ("Feedback received successfully. Model retraining triggered!")) := by
  refine ⟨receive_feedback_store_append retrainFn contents u o st, ?_, ?_⟩ <;>
  · simp only [receive_feedback, save_feedback_image_and_label]
    cases hr : retrainFn
        { st with feedback := st.feedback ++ [(trueLabelOf u, contents)] } with
    | error e => simp [hr]
    | ok mf =>
      cases mf with
      | none => simp [hr]
      | some m => simp [hr]

/-- **C7, witness.** The amended property applied to the concrete failing
retraining step. -/
theorem c7_success_requires_retrain_witness :
    (receive_feedback failingRetrain [7] ("false_cgi") ("p")
        emptySysState).2 = .error () :=
  (c7_success_requires_retrain failingRetrain [7] ("false_cgi") ("p")
    emptySysState).2.1 () (by rfl)

/-- **C10.** In every outcome of the `/report` handler — including failed
retraining — the submitted image is stored under the true label computed
from the `userCorrection` form field, and that label is `real` exactly when
`userCorrection` equals `false_cgi`; every other value, the empty string
included, stores the sample under `cgi`. -/
theorem c10_feedback_label_rule (retrainFn : SysState →
      Except Unit (Option (List (List PyFloat) × List ℕ)))
    (contents : List ℕ) (u o : String) (st : SysState) :
    ((receive_feedback retrainFn contents u o st).1.feedback =
      st.feedback ++ [(trueLabelOf u, contents)]) ∧
    (trueLabelOf u = ("real") ↔ u = ("false_cgi")) ∧
    (u ≠ ("false_cgi") → trueLabelOf u = ("cgi")) := by
  refine ⟨receive_feedback_store_append retrainFn contents u o st, ?_, ?_⟩
  · unfold trueLabelOf
    by_cases h : u = ("false_cgi") <;> simp [h]
  · intro h
    simp [trueLabelOf, h]

/-- **C10, witness.** The label rule applied at a concrete unrecognised
correction value: the sample is stored under `cgi`. -/
theorem c10_feedback_label_rule_witness :
    (receive_feedback failingRetrain [3] ("bogus") ("p")
        emptySysState).1.feedback =
      [(trueLabelOf ("bogus"), [3])] ∧
    trueLabelOf ("bogus") = ("cgi") :=
  ⟨(c10_feedback_label_rule failingRetrain [3] ("bogus") ("p")
      emptySysState).1,
   (c10_feedback_label_rule failingRetrain [3] ("bogus") ("p")
      emptySysState).2.2 (by decide)⟩

/-- The persisted feature store (`extracted_features.joblib`): feature
matrix, label vector, and — in files written by this script — the
processed-file identifier list under the key `processed_filepaths`. -/
structure FeatureStore where
  features : List (List PyFloat)
  labels : List ℕ
  processedFilepaths : Option (List String)
deriving DecidableEq, Repr

/-- Per-file status recorded in the progress manifest's `image_tracking`. -/
inductive FileStatus where
  | completed
  | errored (msg : String)
deriving DecidableEq, Repr

/-- The progress manifest (`training_progress.json`): the chunked file
list and the per-file tracking map. -/
structure Manifest where
  chunks : List (List String)
  imageTracking : List (String × FileStatus)
deriving DecidableEq, Repr

/-- The two files the batch pipeline persists. -/
structure Disk where
  progressFile : Option Manifest
  featuresFile : Option FeatureStore
deriving DecidableEq, Repr

/-- A word character in the sense of the regex `[\s\W]+`'s complement:
letters, digits, underscore. -/
def isWordChar (c : Char) : Bool :=
  c.isAlpha || c.isDigit || c = Char.ofNat 95

/-- `clean_filename` (train_model.py lines 21-23):
`re.sub(r'[\s\W]+', '_', filename)` — every maximal run of whitespace or
non-word characters becomes a single underscore. -/
def cleanFilename (s : String) : String :=
  let step := fun (acc : List Char × Bool) (c : Char) =>
    if isWordChar c then (acc.1 ++ [c], false)
    else if acc.2 then acc
    else (acc.1 ++ [Char.ofNat 95], true)
  ((s.data.foldl step ([], false)).1).asString

/-- `os.path.basename`: the part of the path after the final slash
(character 47). -/
def basename (s : String) : String :=
  (s.data.foldl
    (fun acc c => if c = Char.ofNat 47 then [] else acc ++ [c]) []).asString

/-- The key under which a file is tracked in the manifest
(train_model.py line 113). -/
def fileKey (fp : String) : String := cleanFilename (basename fp)

/-- One character list is a leading segment of another. -/
def leadingSegment : List Char → List Char → Bool
  | [], _ => true
  | _ :: _, [] => false
  | p :: ps, c :: cs => p = c && leadingSegment ps cs

/-- Python's `in` on strings: `pat` occurs contiguously in `hay`. -/
def containsSub (hay pat : List Char) : Bool :=
  match hay with
  | [] => leadingSegment pat []
  | _ :: rest => leadingSegment pat hay || containsSub rest pat

/-- `1 if 'FAKE' in filepath else 0` (train_model.py line 118). -/
def labelOf (fp : String) : ℕ :=
  if containsSub fp.data (("FAKE").data) then 1 else 0

/-- Python dict assignment `d[k] = v` on an association list: replace the
existing entry or append a new one. -/
def setAssoc (l : List (String × FileStatus)) (k : String) (v : FileStatus) :
    List (String × FileStatus) :=
  if l.any (fun p => p.1 = k) then
    l.map (fun p => if p.1 = k then (k, v) else p)
  else l ++ [(k, v)]

/-- The `completed_files` set (train_model.py lines 87-89): non-empty only
when the loaded store exists, has a non-empty feature list, and carries the
`processed_filepaths` key. -/
def computeCompleted (sf : Option FeatureStore) : List String :=
  match sf with
  | none => []
  | some s =>
    if s.features ≠ [] then (s.processedFilepaths).getD [] else []

/-- The task list (train_model.py lines 92-96): every file of the flattened
chunk list that is not in `completed_files`.  Membership in the manifest's
`image_tracking` statuses plays no part. -/
def computeTasks (m : Manifest) (sf : Option FeatureStore) : List String :=
  (m.chunks.join).filter (fun fp => !((computeCompleted sf).contains fp))

/-- `process_image` (train_model.py lines 52-62): run extraction on one
file; an exception becomes its message, an empty feature vector becomes
`Unknown error`. -/
def processImage (extract : String → Except String (List PyFloat))
    (fp : String) : String × Except String (List PyFloat) :=
  (fp, match extract fp with
       | .ok f => if f = [] then .error ("Unknown error") else .ok f
       | .error e => .error e)

/-- The in-memory state of the collection loop of `run_feature_extraction`
(train_model.py lines 108-125), together with the manifest currently
persisted on disk (`diskManifest`), which is rewritten after every single
file result. -/
structure RunState where
  manifest : Manifest
  diskManifest : Manifest
  newFeatures : List (List PyFloat)
  newLabels : List ℕ
  processedThisRun : List String
deriving DecidableEq, Repr

/-- One iteration of the collection loop (train_model.py lines 111-125):
record the file's status under its cleaned key, accumulate its features,
label and path on success, and rewrite the manifest to disk. -/
def stepFile (st : RunState) (r : String × Except String (List PyFloat)) :
    RunState :=
  match r.2 with
  | .ok feats =>
    let m : Manifest := { st.manifest with
      imageTracking := setAssoc st.manifest.imageTracking (fileKey r.1)
        FileStatus.completed }
    { manifest := m, diskManifest := m,
      newFeatures := st.newFeatures ++ [feats],
      newLabels := st.newLabels ++ [labelOf r.1],
      processedThisRun := st.processedThisRun ++ [r.1] }
  | .error e =>
    let m : Manifest := { st.manifest with
      imageTracking := setAssoc st.manifest.imageTracking (fileKey r.1)
        (FileStatus.errored e) }
    { st with manifest := m, diskManifest := m }

/-- The collection loop run over a list of completed task results (the
`as_completed` order). -/
def runLoop (m0 : Manifest)
    (results : List (String × Except String (List PyFloat))) : RunState :=
  results.foldl stepFile
    { manifest := m0, diskManifest := m0, newFeatures := [],
      newLabels := [], processedThisRun := [] }

/-- The feature rows of an optional store. -/
def storeFeatures (sf : Option FeatureStore) : List (List PyFloat) :=
  match sf with
  | none => []
  | some s => s.features

/-- The label entries of an optional store. -/
def storeLabels (sf : Option FeatureStore) : List ℕ :=
  match sf with
  | none => []
  | some s => s.labels

/-- `run_feature_extraction` (train_model.py lines 65-144), for a disk that
already holds the manifest `m0` and optionally a store `sf`: compute the
task list; if it is empty return at once, leaving the disk untouched; else
process the tasks in the completion order `perm`, rewriting the manifest
after every file; if nothing succeeded return with the store untouched;
otherwise write the combined store once, at the end of the run — this is
the only point at which the feature store file is written. -/
def runFeatureExtraction (extract : String → Except String (List PyFloat))
    (perm : List String) (m0 : Manifest) (sf : Option FeatureStore) :
    Disk × List (List PyFloat) × List ℕ :=
  let tasks := computeTasks m0 sf
  if tasks = [] then
    ({ progressFile := some m0, featuresFile := sf },
     storeFeatures sf, storeLabels sf)
  else
    let results := perm.map (processImage extract)
    let st := runLoop m0 results
    if st.newFeatures = [] then
      ({ progressFile := some st.diskManifest, featuresFile := sf },
       storeFeatures sf, storeLabels sf)
    else
      let combinedF := storeFeatures sf ++ st.newFeatures
      let combinedL := storeLabels sf ++ st.newLabels
      let combinedP := computeCompleted sf ++ st.processedThisRun
      ({ progressFile := some st.diskManifest,
         featuresFile := some { features := combinedF, labels := combinedL,
                                processedFilepaths := some combinedP } },
       combinedF, combinedL)

/-- The disk as left by a run interrupted after the first `k` task results:
the progress file holds the manifest as last rewritten, while the feature
store file still holds whatever was there before the run. -/
def interruptedDisk (m0 : Manifest) (sf : Option FeatureStore)
    (results : List (String × Except String (List PyFloat))) (k : ℕ) :
    Disk :=
  { progressFile := some (runLoop m0 (results.take k)).diskManifest,
    featuresFile := sf }

theorem stepFile_diskManifest_eq (st : RunState)
    (r : String × Except String (List PyFloat)) :
    (stepFile st r).diskManifest = (stepFile st r).manifest := by
  cases hr : r.2 <;> simp [stepFile, hr]

theorem stepFile_chunks (st : RunState)
    (r : String × Except String (List PyFloat)) :
    (stepFile st r).manifest.chunks = st.manifest.chunks := by
  cases hr : r.2 <;> simp [stepFile, hr]

theorem foldl_stepFile_diskManifest
    (rs : List (String × Except String (List PyFloat))) :
    ∀ st : RunState, st.diskManifest = st.manifest →
      (rs.foldl stepFile st).diskManifest
        = (rs.foldl stepFile st).manifest := by
  induction rs with
  | nil => intro st h; exact h
  | cons r rs ih =>
    intro st _
    exact ih (stepFile st r) (stepFile_diskManifest_eq st r)

theorem foldl_stepFile_chunks
    (rs : List (String × Except String (List PyFloat))) :
    ∀ st : RunState,
      (rs.foldl stepFile st).manifest.chunks = st.manifest.chunks := by
  induction rs with
  | nil => intro st; rfl
  | cons r rs ih =>
    intro st
    rw [List.foldl_cons, ih (stepFile st r), stepFile_chunks]

/-- **C8, amended.** In `run_feature_extraction`: (a) the manifest on disk
is identical to the in-memory manifest after every individual file result
(the per-file manifest checkpoint of the claim is real); (b) processing
never changes the manifest's chunk list; (c) the feature store on disk is
untouched for the whole duration of the collection loop — it is written
once, after all submitted tasks have finished, never at chunk boundaries —
so a run interrupted after any `k` results has persisted none of its
feature data; and (d) a restarted run computes exactly the same task list
as the interrupted run did, because task selection consults only the
store's processed-file set: the `k` files already completed (and recorded
`completed` in the manifest) are re-submitted and re-extracted. -/
theorem c8_checkpoint_and_restart (m0 : Manifest) (sf : Option FeatureStore)
    (results : List (String × Except String (List PyFloat))) (k : ℕ) :
    ((runLoop m0 (results.take k)).diskManifest
      = (runLoop m0 (results.take k)).manifest) ∧
    ((runLoop m0 (results.take k)).manifest.chunks = m0.chunks) ∧
    ((interruptedDisk m0 sf results k).featuresFile = sf) ∧
    (computeTasks (runLoop m0 (results.take k)).manifest sf
      = computeTasks m0 sf) := by
  refine ⟨foldl_stepFile_diskManifest _ _ rfl, foldl_stepFile_chunks _ _,
    rfl, ?_⟩
  unfold computeTasks runLoop
  rw [foldl_stepFile_chunks]

/-- The two-chunk manifest of the interruption scenario: chunk 1 holds file
`a`, chunk 2 holds file `b`. -/
def c8Manifest : Manifest :=
  { chunks := [[("a")], [("b")]], imageTracking := [] }

/-- A pre-existing feature store holding one earlier sample. -/
def c8Store : FeatureStore :=
  { features := [[PyFloat.finite 1]], labels := [0],
    processedFilepaths := some [("z")] }

/-- An extraction step that always succeeds with one feature. -/
def c8Extract : String → Except String (List PyFloat) :=
  fun _ => .ok [PyFloat.finite 1]

/-- The completed task results of the scenario, in completion order. -/
def c8Results : List (String × Except String (List PyFloat)) :=
  [("a"), ("b")].map (processImage c8Extract)

/-- **C8, counterexample.** Interrupt the run after the first result: file
`a` (the whole of chunk 1) is recorded `completed` in the manifest, chunk 1
has fully completed — yet the feature store on disk is unchanged (so its
feature data is lost, refuting the per-chunk store rewrite), and the
restarted run's task list still contains `a`, which is therefore
re-extracted (refuting "never re-extracts the k already-completed
files"). -/
theorem c8_restart_reextracts_completed :
    (runLoop c8Manifest (c8Results.take 1)).manifest.imageTracking
      = [(("a"), FileStatus.completed)] ∧
    (interruptedDisk c8Manifest (some c8Store) c8Results 1).featuresFile
      = some c8Store ∧
    computeTasks (runLoop c8Manifest (c8Results.take 1)).manifest
        (some c8Store) = [("a"), ("b")] ∧
    ("a") ∈ computeTasks (runLoop c8Manifest (c8Results.take 1)).manifest
        (some c8Store) := by
  exact ⟨by rfl, by rfl, by rfl, by decide⟩

/-- **C9.** If every file listed in the manifest's chunks is already in the
store's processed-file set, `run_feature_extraction` submits zero
extraction tasks and returns immediately with the disk — the feature store
file in particular — byte-for-byte unchanged. -/
theorem c9_idempotent_rerun (extract : String → Except String (List PyFloat))
    (perm : List String) (m0 : Manifest) (sf : Option FeatureStore)
    (hall : ∀ fp ∈ m0.chunks.join, fp ∈ computeCompleted sf) :
    computeTasks m0 sf = [] ∧
    runFeatureExtraction extract perm m0 sf =
      ({ progressFile := some m0, featuresFile := sf },
       storeFeatures sf, storeLabels sf) := by
  have ht : computeTasks m0 sf = [] := by
    unfold computeTasks
    rw [List.filter_eq_nil]
    intro fp hfp
    simp only [Bool.not_eq_true', Bool.not_eq_false]
    exact List.elem_eq_true_of_mem (hall fp hfp)
  refine ⟨ht, ?_⟩
  unfold runFeatureExtraction
  simp [ht]

/-- The one-file manifest of the idempotence witness. -/
def c9Manifest : Manifest :=
  { chunks := [[("a")]], imageTracking := [(("a"), FileStatus.completed)] }

/-- A store that already holds file `a`'s vector and records it processed. -/
def c9Store : FeatureStore :=
  { features := [[PyFloat.finite 1]], labels := [0],
    processedFilepaths := some [("a")] }

/-- **C9, witness.** The idempotence property applied to a concrete fully
processed dataset. -/
theorem c9_idempotent_rerun_witness :
    runFeatureExtraction c8Extract [] c9Manifest (some c9Store) =
      ({ progressFile := some c9Manifest, featuresFile := some c9Store },
       storeFeatures (some c9Store), storeLabels (some c9Store)) :=
  (c9_idempotent_rerun c8Extract [] c9Manifest (some c9Store)
    (by decide)).2
